import Mathlib

/-!
Shallow embedding of `node_manager_daemon_fkie/launch_stub.py` (class
`LaunchStub`): the status-code taxonomy, the exception mapping of
`load_launch` / `start_node` / `start_standalone_node`, the request
builders, `get_loaded_files`, and the include-tree reconstruction of
`get_included_files` / `get_included_files_set`.

Remote calls are modelled by passing the response (or the list of streamed
responses) as an explicit argument; raised Python exceptions are modelled
with `Except`.
-/

/-- Status codes of `lmsg.ReturnStatus.StatusType` (module-level constants
`OK`, `ERROR`, ... in `launch_stub.py`). -/
inductive StatusType : Type where
  | OK
  | ERROR
  | ALREADY_OPEN
  | MULTIPLE_BINARIES
  | MULTIPLE_LAUNCHES
  | PARAMS_REQUIRED
  | FILE_NOT_FOUND
  | NODE_NOT_FOUND
deriving DecidableEq, Repr

/-- Modelled from the spec: the numeric values of the generated protobuf
enum (`launch_pb2` is generated code, not under `src/`); `OK` is the
protobuf default value `0`, the comparison `response.status.code == 0`
in the source compares against it. The other values only need to be
non-zero and pairwise distinct. -/
def StatusType.code : StatusType → Nat
  | .OK => 0
  | .ERROR => 1
  | .ALREADY_OPEN => 2
  | .MULTIPLE_BINARIES => 3
  | .MULTIPLE_LAUNCHES => 4
  | .PARAMS_REQUIRED => 5
  | .FILE_NOT_FOUND => 6
  | .NODE_NOT_FOUND => 7

/-- `response.status`: a status code plus a human readable message. -/
structure ReturnStatus where
  code : StatusType
  error_msg : String
deriving DecidableEq, Repr

/-- Modelled from the spec: the typed failures of the `exceptions` module
(not under `src/`), one constructor per exception class raised by
`launch_stub.py`, each carrying exactly the data the call site passes.
`GenericException` models a plain Python `Exception(msg)`; `IndexError`
models an out-of-range list subscript. -/
inductive PyExc : Type where
  | StartException (msg : String)
  | BinarySelectionRequest (choices : List String) (msg : String)
  | LaunchSelectionRequest (choices : List String) (msg : String)
  | ParamSelectionRequest (args : List (String × String)) (msg : String)
  | AlreadyOpenException (path : String) (msg : String)
  | ResourceNotFound (path : String) (msg : String)
  | RemoteException (code : StatusType) (msg : String)
  | GenericException (msg : String)
  | IndexError
deriving DecidableEq, Repr

/-- `lmsg.Argument(name=..., value=...)`. -/
structure Argument where
  name : String
  value : String
deriving DecidableEq, Repr

/-- `lmsg.Remapping(from_name=..., to_name=...)`. -/
structure Remapping where
  from_name : String
  to_name : String
deriving DecidableEq, Repr

/-- Python dict insertion `d[k] = v`: overwrite the value if the key is
present, otherwise append the binding. Dicts are modelled as association
lists in key insertion order. -/
def pyDictInsert (d : List (String × String)) (k v : String) : List (String × String) :=
  if d.any (fun p => p.1 = k) then
    d.map (fun p => if p.1 = k then (k, v) else p)
  else
    d ++ [(k, v)]

/-- A Python dict comprehension `{k: v for (k, v) in l}`. -/
def pyDict (l : List (String × String)) : List (String × String) :=
  l.foldl (fun d p => pyDictInsert d p.1 p.2) []

/-! ## Include-tree reconstruction (`get_included_files`) -/

/-- One streamed `lmsg.IncludedFilesReply` record: the file the include was
found in, the line number, the included path, and whether it exists. -/
structure IncludedFilesReply where
  root_path : String
  linenr : Nat
  path : String
  fexists : Bool
deriving DecidableEq, Repr

/-- The Python result tuple `(linenr, path, exists, children)` of
`get_included_files`. -/
inductive IncTuple : Type where
  | node (linenr : Nat) (path : String) (fexists : Bool) (children : List IncTuple)

/-- A stack frame of the reconstruction: the Python code keeps
`(root_path, child_list)` pairs in `queue`. In the embedding the stack is
kept top-first and each frame owns the child list built so far for its
`root_path`; the in-place aliasing of the Python lists is recovered by
writing an open frame's list back into the last node of the frame below
when the frame is popped (`setLastChildren`). -/
abbrev Frame := String × List IncTuple

/-- The new IncludeNode appended for a record:
`(response.linenr, response.path, response.exists, [])`. -/
def mkNode (response : IncludedFilesReply) : IncTuple :=
  IncTuple.node response.linenr response.path response.fexists []

/-- Replace the children of the last node of a sibling list. This realises,
in the pure embedding, the in-place mutation Python performs through the
shared list reference pushed in `queue.append((last_root, queue[-1][1][-1][3]))`. -/
def setLastChildren : List IncTuple → List IncTuple → List IncTuple
  | [], _ => []
  | [IncTuple.node l p e _], cs => [IncTuple.node l p e cs]
  | x :: y :: xs, cs => x :: setLastChildren (y :: xs) cs

/-- The pop loop of the third branch:
`last_item = queue.pop(); while last_item[0] != response.root_path and queue: last_item = queue.pop()`.
`f` is the frame popped last (`last_item`), the list is the rest of the
stack. Returns the found frame (with every popped frame's children written
back into it) and the remaining stack, or `none` when the stack is
exhausted without a match. -/
def popFind (root_path : String) (f : Frame) : List Frame → Option (Frame × List Frame)
  | [] => if f.1 = root_path then some (f, []) else none
  | g :: rest2 =>
    if f.1 = root_path then some (f, g :: rest2)
    else popFind root_path (g.1, setLastChildren g.2 f.2) rest2

/-- The reconstruction state: `queue` (top frame first; Python keeps the
top last), `current_root` and `last_root` of `get_included_files`. -/
structure RecState where
  queue : List Frame
  current_root : String
  last_root : String

/-- The body of the `for response in reply` loop of `get_included_files`:
sibling append, descent into the last appended node, or pop back to an
ancestor; an unmatched `root_path` raises
`Exception("wrong root item: %s" % response.root_path)`. The empty-queue
branch and the `IndexError` branch mirror Python list subscripts
(`queue[-1]`, `queue[-1][1][-1]`) on empty lists. -/
def recStep (st : RecState) (response : IncludedFilesReply) : Except PyExc RecState :=
  match st.queue with
  | [] => Except.error PyExc.IndexError
  | top :: rest =>
    if st.current_root = response.root_path then
      Except.ok ⟨(top.1, top.2 ++ [mkNode response]) :: rest, st.current_root, response.path⟩
    else if st.last_root = response.root_path then
      match top.2 with
      | [] => Except.error PyExc.IndexError
      | _ :: _ =>
        Except.ok ⟨(st.last_root, [mkNode response]) :: top :: rest, st.last_root, response.path⟩
    else
      match popFind response.root_path top rest with
      | some (f, rest2) =>
        Except.ok ⟨(f.1, f.2 ++ [mkNode response]) :: rest2, response.root_path, response.path⟩
      | none =>
        Except.error (PyExc.GenericException ("wrong root item: " ++ response.root_path))

/-- Run the reconstruction loop over the streamed records. -/
def runRec (st : RecState) : List IncludedFilesReply → Except PyExc RecState
  | [] => Except.ok st
  | r :: rs =>
    match recStep st r with
    | Except.ok st2 => runRec st2 rs
    | Except.error e => Except.error e

/-- Merge the open frames below `f` bottom-ward: write `f`'s child list
into the last node of the frame below it, and so on down the stack;
returns the bottom list. -/
def collapseFrom (f : Frame) : List Frame → List IncTuple
  | [] => f.2
  | g :: rest => collapseFrom (g.1, setLastChildren g.2 f.2) rest

/-- Merge the remaining open frames at end of stream: in Python the deeper
child lists are already linked into the result by aliasing, so the bottom
frame's list is the finished forest. -/
def collapse : List Frame → List IncTuple
  | [] => []
  | f :: rest => collapseFrom f rest

/-- `LaunchStub.get_included_files(root, ...)` with the server stream
passed explicitly: `queue = [(root, result)]`, `current_root = root`,
`last_root = ''`, then the loop, then `result`. -/
def get_included_files (root : String) (reply : List IncludedFilesReply) :
    Except PyExc (List IncTuple) :=
  match runRec ⟨[(root, [])], root, ""⟩ reply with
  | Except.ok st => Except.ok (collapse st.queue)
  | Except.error e => Except.error e

/-- `LaunchStub.get_included_files_set`: insert every streamed `path` into
a set and return it as a list. The set is modelled as a first-occurrence
deduplicated list (Python set iteration order is unspecified; no claim
depends on it). -/
def get_included_files_set (reply : List IncludedFilesReply) : List String :=
  (reply.map (fun response => response.path)).dedup

/-! ## `load_launch` -/

/-- `lmsg.LoadLaunchRequest` plus the extended `args`. -/
structure LoadLaunchRequest where
  package : String
  launch : String
  path : String
  request_args : Bool
  masteruri : String
  host : String
  args : List Argument
deriving DecidableEq, Repr

/-- The unary `LoadLaunch` response: status, repeated `path`, repeated `args`. -/
structure LoadLaunchReply where
  status : ReturnStatus
  path : List String
  args : List Argument
deriving DecidableEq, Repr

/-- Request construction of `LaunchStub.load_launch`: `args=None` becomes
the empty dict, then every `(name, value)` item is appended as an
`lmsg.Argument`. The caller's dict is modelled as an association list in
its iteration order. -/
def load_launch_request (package launch path : String) (args : Option (List (String × String)))
    (request_args : Bool) (masteruri host : String) : LoadLaunchRequest :=
  let arguments := match args with
    | none => []
    | some a => a
  { package := package, launch := launch, path := path, request_args := request_args,
    masteruri := masteruri, host := host,
    args := arguments.map (fun nv => { name := nv.1, value := nv.2 }) }

/-- Response dispatch of `LaunchStub.load_launch`: `OK` returns
`(response.path[0], {arg.name: arg.value for arg in response.args})`;
`MULTIPLE_LAUNCHES`, `PARAMS_REQUIRED` and `ALREADY_OPEN` raise their
dedicated exceptions; every other code raises
`RemoteException(code, error_msg)`. `response.path[0]` on an empty
repeated field is a Python `IndexError`. -/
def load_launch_response (response : LoadLaunchReply) :
    Except PyExc (String × List (String × String)) :=
  if response.status.code = StatusType.OK then
    match response.path with
    | [] => Except.error PyExc.IndexError
    | p :: _ =>
      Except.ok (p, pyDict (response.args.map (fun a => (a.name, a.value))))
  else if response.status.code = StatusType.MULTIPLE_LAUNCHES then
    Except.error (PyExc.LaunchSelectionRequest response.path response.status.error_msg)
  else if response.status.code = StatusType.PARAMS_REQUIRED then
    Except.error (PyExc.ParamSelectionRequest
      (pyDict (response.args.map (fun a => (a.name, a.value)))) response.status.error_msg)
  else if response.status.code = StatusType.ALREADY_OPEN then
    match response.path with
    | [] => Except.error PyExc.IndexError
    | p :: _ => Except.error (PyExc.AlreadyOpenException p response.status.error_msg)
  else
    Except.error (PyExc.RemoteException response.status.code response.status.error_msg)

/-- `LaunchStub.load_launch` with the remote response passed explicitly:
the observable behaviour is the request that is sent plus the returned
value or raised exception. -/
def load_launch (package launch path : String) (args : Option (List (String × String)))
    (request_args : Bool) (masteruri host : String) (response : LoadLaunchReply) :
    LoadLaunchRequest × Except PyExc (String × List (String × String)) :=
  (load_launch_request package launch path args request_args masteruri host,
   load_launch_response response)

/-! ## `get_loaded_files` -/

/-- One streamed `GetLoadedFiles` response. -/
structure LoadedFileMsg where
  package : String
  path : String
  args : List Argument
  masteruri : String
  host : String
deriving DecidableEq, Repr

/-- The tuple appended per response:
`(loaded_file.package, loaded_file.path, args, loaded_file.masteruri, loaded_file.host)`. -/
def loadedTuple (loaded_file : LoadedFileMsg) :
    String × String × List (String × String) × String × String :=
  (loaded_file.package, loaded_file.path,
   pyDict (loaded_file.args.map (fun a => (a.name, a.value))),
   loaded_file.masteruri, loaded_file.host)

/-- `LaunchStub.get_loaded_files`: `result = []`, then one append per
streamed response. -/
def get_loaded_files (response : List LoadedFileMsg) :
    List (String × String × List (String × String) × String × String) :=
  response.foldl (fun result loaded_file => result ++ [loadedTuple loaded_file]) []

/-! ## `start_node` -/

/-- One streamed `StartNode` response: status, repeated `path` (binary
candidates), repeated `launch` (launch-file candidates). -/
structure StartNodeReply where
  status : ReturnStatus
  path : List String
  launch : List String
deriving DecidableEq, Repr

/-- The body of the `for response in response_stream` loop of
`LaunchStub.start_node`. The `if/elif` chain has no final `else`: a status
code that is none of `0`, `ERROR`, `NODE_NOT_FOUND`, `MULTIPLE_BINARIES`,
`MULTIPLE_LAUNCHES` falls through and the loop continues. -/
def processStartResponse (response : StartNodeReply) : Except PyExc Unit :=
  if response.status.code.code = 0 then Except.ok ()
  else if response.status.code = StatusType.ERROR then
    Except.error (PyExc.StartException response.status.error_msg)
  else if response.status.code = StatusType.NODE_NOT_FOUND then
    Except.error (PyExc.StartException response.status.error_msg)
  else if response.status.code = StatusType.MULTIPLE_BINARIES then
    Except.error (PyExc.BinarySelectionRequest response.path response.status.error_msg)
  else if response.status.code = StatusType.MULTIPLE_LAUNCHES then
    Except.error (PyExc.LaunchSelectionRequest response.launch response.status.error_msg)
  else Except.ok ()

/-- `LaunchStub.start_node` with the response stream passed explicitly. -/
def start_node (response_stream : List StartNodeReply) : Except PyExc Unit :=
  response_stream.forM processStartResponse

/-! ## `start_standalone_node` -/

/-- Modelled from the spec: `common.utf8` (not under `src/`) coerces a
parameter value to its canonical text encoding; on a value that is already
text it is the identity. Parameter values are modelled as text. -/
def utf8 (value : String) : String := value

/-- Modelled from the spec: the fields of
`node_manager_daemon_fkie.startcfg.StartConfig` (not under `src/`), typed
as `launch_stub.py` uses them: strings for the path-like fields, mappings
for `env`/`remaps`/`params`, lists for `clear_params`/`args`, the respawn
policy flag and timers. The source fields `namespace` and `prefix` are
renamed (`namespace` is a Lean keyword, `prefix` a reserved token). -/
structure StartConfig where
  package : String
  binary : String
  binary_path : String
  name : String
  namespace_str : String
  fullname : String
  prefix_str : String
  cwd : String
  env : List (String × String)
  remaps : List (String × String)
  params : List (String × String)
  clear_params : List String
  args : List String
  masteruri : String
  loglevel : String
  respawn : Bool
  respawn_delay : Nat
  respawn_max : Nat
  respawn_min_runtime : Nat
deriving DecidableEq, Repr

/-- The outgoing `lmsg.StartConfig` request. Optional scalar protobuf
fields distinguish unset (`none`) from set; repeated fields are unset
exactly when empty. `loglevel` and the respawn fields are always set. -/
structure StartConfigRequest where
  package : String
  binary : String
  binary_path : Option String
  name : Option String
  namespace_str : Option String
  fullname : Option String
  prefix_str : Option String
  cwd : Option String
  env : List Argument
  remaps : List Remapping
  params : List Argument
  clear_params : List String
  args : List String
  masteruri : Option String
  loglevel : String
  respawn : Bool
  respawn_delay : Nat
  respawn_max : Nat
  respawn_min_runtime : Nat
deriving DecidableEq, Repr

/-- Request construction of `LaunchStub.start_standalone_node` (lines
267-298): each `if startcfg.field:` guard sets the request field only for
a truthy (non-empty) value; `loglevel`, `respawn`, `respawn_delay`,
`respawn_max`, `respawn_min_runtime` are set unconditionally. -/
def build_start_config_request (startcfg : StartConfig) : StartConfigRequest :=
  { package := startcfg.package
    binary := startcfg.binary
    binary_path := if startcfg.binary_path ≠ "" then some startcfg.binary_path else none
    name := if startcfg.name ≠ "" then some startcfg.name else none
    namespace_str := if startcfg.namespace_str ≠ "" then some startcfg.namespace_str else none
    fullname := if startcfg.fullname ≠ "" then some startcfg.fullname else none
    prefix_str := if startcfg.prefix_str ≠ "" then some startcfg.prefix_str else none
    cwd := if startcfg.cwd ≠ "" then some startcfg.cwd else none
    env := if startcfg.env ≠ [] then
        startcfg.env.map (fun nv => { name := nv.1, value := nv.2 })
      else []
    remaps := if startcfg.remaps ≠ [] then
        startcfg.remaps.map (fun nv => { from_name := nv.1, to_name := nv.2 })
      else []
    params := if startcfg.params ≠ [] then
        startcfg.params.map (fun nv => { name := nv.1, value := utf8 nv.2 })
      else []
    clear_params := if startcfg.clear_params ≠ [] then startcfg.clear_params else []
    args := if startcfg.args ≠ [] then startcfg.args else []
    masteruri := if startcfg.masteruri ≠ "" then some startcfg.masteruri else none
    loglevel := startcfg.loglevel
    respawn := startcfg.respawn
    respawn_delay := startcfg.respawn_delay
    respawn_max := startcfg.respawn_max
    respawn_min_runtime := startcfg.respawn_min_runtime }

/-- The unary `StartStandaloneNode` response. -/
structure StandaloneReply where
  status : ReturnStatus
  path : List String
deriving DecidableEq, Repr

/-- Response dispatch of `LaunchStub.start_standalone_node` (lines
299-307). The `if/elif` chain handles `0`, `MULTIPLE_BINARIES`
(message is the literal `'Multiple executables'`), `FILE_NOT_FOUND`
(message built from `startcfg`), `ERROR`; any other code falls through
and the call returns `None`. -/
def start_standalone_node_response (startcfg : StartConfig) (response : StandaloneReply) :
    Except PyExc Unit :=
  if response.status.code.code = 0 then Except.ok ()
  else if response.status.code = StatusType.MULTIPLE_BINARIES then
    Except.error (PyExc.BinarySelectionRequest response.path "Multiple executables")
  else if response.status.code = StatusType.FILE_NOT_FOUND then
    Except.error (PyExc.StartException
      ("Can't find " ++ startcfg.binary ++ " in " ++ startcfg.package))
  else if response.status.code = StatusType.ERROR then
    Except.error (PyExc.StartException response.status.error_msg)
  else Except.ok ()

/-- `LaunchStub.start_standalone_node` with the response passed
explicitly: the observable behaviour is the request sent plus the
returned value or raised exception. -/
def start_standalone_node (startcfg : StartConfig) (response : StandaloneReply) :
    StartConfigRequest × Except PyExc Unit :=
  (build_start_config_request startcfg, start_standalone_node_response startcfg response)

/-! ## Emission model for the reconstruction claims

Formalisation of the spec's depth-first, pre-order emission of an include
forest: each node's record carries `root_path` equal to its parent's path
(the queried root for top-level nodes) and is immediately followed by the
records of its own subtree, then by its next sibling's records. -/

/-- The flat record stream a server emits for forest `cs` whose nodes are
children of the file `r`. -/
def emitForest (r : String) (cs : List IncTuple) : List IncludedFilesReply :=
  match cs with
  | [] => []
  | IncTuple.node l p e kids :: ts =>
    ⟨r, l, p, e⟩ :: (emitForest p kids ++ emitForest r ts)
termination_by sizeOf cs

/-- All node paths of a forest, in pre-order. -/
def pathsOf (cs : List IncTuple) : List String :=
  match cs with
  | [] => []
  | IncTuple.node _ p _ kids :: ts => p :: (pathsOf kids ++ pathsOf ts)
termination_by sizeOf cs

/-- The stack of open frames left after the reconstruction has consumed
`emitForest r cs`, starting from a top frame `(r, acc)` (top frame first;
the base frame `(r, ...)` is last). Only the rightmost spine of the last
tree is still open; earlier siblings are complete. -/
def spineStack (r : String) (acc : List IncTuple) (cs : List IncTuple) : List Frame :=
  match cs with
  | [] => [(r, acc)]
  | [IncTuple.node l p e kids] =>
    match kids with
    | [] => [(r, acc ++ [IncTuple.node l p e []])]
    | k1 :: krest => spineStack p [] (k1 :: krest) ++ [(r, acc ++ [IncTuple.node l p e []])]
  | t :: ts => spineStack r (acc ++ [t]) ts
termination_by sizeOf cs

/-- The `current_root` (label of the top frame) after consuming
`emitForest r cs`. -/
def spineTop (r : String) (cs : List IncTuple) : String :=
  match cs with
  | [] => r
  | [IncTuple.node _ p _ kids] =>
    match kids with
    | [] => r
    | k1 :: krest => spineTop p (k1 :: krest)
  | _ :: ts => spineTop r ts
termination_by sizeOf cs

/-- The `last_root` (path of the last emitted record) after consuming
`emitForest r cs`; `d` is its value before. -/
def lastPathF (d : String) (cs : List IncTuple) : String :=
  match cs with
  | [] => d
  | [IncTuple.node _ p _ kids] => lastPathF p kids
  | _ :: ts => lastPathF d ts
termination_by sizeOf cs

/-! ## Lemmas about the reconstruction machinery -/

theorem setLastChildren_append (xs : List IncTuple) (l : Nat) (p : String) (e : Bool)
    (c k : List IncTuple) :
    setLastChildren (xs ++ [IncTuple.node l p e c]) k = xs ++ [IncTuple.node l p e k] := by
  induction xs with
  | nil => rfl
  | cons x xs ih =>
    have h : ∃ y ys, xs ++ [IncTuple.node l p e c] = y :: ys := by
      cases xs <;> exact ⟨_, _, rfl⟩
    obtain ⟨y, ys, h⟩ := h
    calc setLastChildren ((x :: xs) ++ [IncTuple.node l p e c]) k
        = x :: setLastChildren (xs ++ [IncTuple.node l p e c]) k := by
          rw [List.cons_append, h, setLastChildren]
      _ = (x :: xs) ++ [IncTuple.node l p e k] := by rw [ih]; rfl

theorem collapseFrom_cons (f g : Frame) (rest : List Frame) :
    collapseFrom f (g :: rest) = collapseFrom (g.1, setLastChildren g.2 f.2) rest := rfl

theorem collapse_cons_cons (f g : Frame) (rest : List Frame) :
    collapse (f :: g :: rest) = collapse ((g.1, setLastChildren g.2 f.2) :: rest) := rfl

theorem popFind_self (R : String) (f : Frame) (rest : List Frame) (h : f.1 = R) :
    popFind R f rest = some (f, rest) := by
  cases rest <;> simp [popFind, h]

theorem popFind_through (R : String) (b : List IncTuple) :
    ∀ (S : List Frame) (f : Frame) (rest : List Frame),
      f.1 ≠ R → (∀ g ∈ S, g.1 ≠ R) →
      popFind R f (S ++ (R, b) :: rest)
        = some ((R, setLastChildren b (collapseFrom f S)), rest) := by
  intro S
  induction S with
  | nil =>
    intro f rest hf _
    show popFind R f ((R, b) :: rest) = _
    rw [popFind, if_neg hf]
    exact popFind_self R _ rest rfl
  | cons g S ih =>
    intro f rest hf hS
    show popFind R f (g :: (S ++ (R, b) :: rest)) = _
    rw [popFind, if_neg hf]
    exact ih (g.1, setLastChildren g.2 f.2) rest (hS g (by simp)) (fun x hx => hS x (by simp [hx]))

theorem popFind_none (R : String) :
    ∀ (S : List Frame) (f : Frame), f.1 ≠ R → (∀ g ∈ S, g.1 ≠ R) →
      popFind R f S = none := by
  intro S
  induction S with
  | nil => intro f hf _; simp [popFind, hf]
  | cons g S ih =>
    intro f hf hS
    rw [popFind, if_neg hf]
    exact ih (g.1, setLastChildren g.2 f.2) (hS g (by simp)) (fun x hx => hS x (by simp [hx]))

theorem collapse_spineStack (r : String) (acc cs : List IncTuple) :
    ∀ rest : List Frame,
      collapse (spineStack r acc cs ++ rest) = collapse ((r, acc ++ cs) :: rest) := by
  induction r, acc, cs using spineStack.induct with
  | case1 r acc => intro rest; simp [spineStack]
  | case2 r acc l p e => intro rest; simp [spineStack]
  | case3 r acc l p e k1 krest ih =>
    intro rest
    rw [spineStack]
    rw [List.append_assoc, List.cons_append, List.nil_append]
    rw [ih ((r, acc ++ [IncTuple.node l p e []]) :: rest)]
    rw [collapse_cons_cons]
    simp only [List.nil_append]
    rw [setLastChildren_append]
  | case4 r acc t ts hne ih =>
    intro rest
    obtain ⟨l, p, e, kids⟩ := t
    cases ts with
    | nil => exact absurd rfl (hne l p e kids rfl)
    | cons s ts2 =>
      rw [spineStack]
      · rw [ih]; simp
      · exact hne

theorem recStep_sibling (b : List IncTuple) (rest : List Frame) (r lr : String)
    (resp : IncludedFilesReply) (h : resp.root_path = r) :
    recStep ⟨(r, b) :: rest, r, lr⟩ resp
      = Except.ok ⟨(r, b ++ [mkNode resp]) :: rest, r, resp.path⟩ := by
  simp [recStep, h]

theorem recStep_descend (q : String) (b : List IncTuple) (hb : b ≠ []) (rest : List Frame)
    (cr lr : String) (resp : IncludedFilesReply)
    (hcr : cr ≠ resp.root_path) (hlr : lr = resp.root_path) :
    recStep ⟨(q, b) :: rest, cr, lr⟩ resp
      = Except.ok ⟨(lr, [mkNode resp]) :: (q, b) :: rest, lr, resp.path⟩ := by
  cases b with
  | nil => exact absurd rfl hb
  | cons x b2 => simp [recStep, hcr, hlr]

theorem recStep_pop (S : List Frame) (R : String) (b : List IncTuple) (rest : List Frame)
    (cr lr : String) (resp : IncludedFilesReply)
    (hcr : cr ≠ resp.root_path) (hlr : lr ≠ resp.root_path) (hR : resp.root_path = R)
    (hS : S ≠ []) (hlab : ∀ g ∈ S, g.1 ≠ R) :
    recStep ⟨S ++ (R, b) :: rest, cr, lr⟩ resp
      = Except.ok ⟨(R, setLastChildren b (collapse S) ++ [mkNode resp]) :: rest,
                   R, resp.path⟩ := by
  cases S with
  | nil => exact absurd rfl hS
  | cons f S2 =>
    subst hR
    have hpop := popFind_through resp.root_path b S2 f rest (hlab f (by simp))
      (fun g hg => hlab g (by simp [hg]))
    simp only [recStep, List.cons_append]
    rw [if_neg hcr, if_neg hlr, hpop]
    rfl

theorem recStep_wrong_root (S : List Frame) (cr lr : String) (resp : IncludedFilesReply)
    (hS : S ≠ []) (hcr : cr ≠ resp.root_path) (hlr : lr ≠ resp.root_path)
    (hlab : ∀ g ∈ S, g.1 ≠ resp.root_path) :
    recStep ⟨S, cr, lr⟩ resp
      = Except.error (PyExc.GenericException ("wrong root item: " ++ resp.root_path)) := by
  cases S with
  | nil => exact absurd rfl hS
  | cons f S2 =>
    have hpop := popFind_none resp.root_path S2 f (hlab f (by simp))
      (fun g hg => hlab g (by simp [hg]))
    simp only [recStep]
    rw [if_neg hcr, if_neg hlr, hpop]

theorem runRec_cons_ok {st st2 : RecState} {r : IncludedFilesReply}
    (rs : List IncludedFilesReply) (h : recStep st r = Except.ok st2) :
    runRec st (r :: rs) = runRec st2 rs := by
  simp [runRec, h]

theorem runRec_append (l1 : List IncludedFilesReply) :
    ∀ (st st2 : RecState) (l2 : List IncludedFilesReply),
      runRec st l1 = Except.ok st2 → runRec st (l1 ++ l2) = runRec st2 l2 := by
  induction l1 with
  | nil =>
    intro st st2 l2 h
    cases h
    rfl
  | cons r rs ih =>
    intro st st2 l2 h
    cases hstep : recStep st r with
    | ok st3 =>
      rw [runRec_cons_ok rs hstep] at h
      rw [List.cons_append, runRec_cons_ok (rs ++ l2) hstep]
      exact ih st3 st2 l2 h
    | error e =>
      rw [runRec, hstep] at h
      cases h

theorem emitForest_cons (r : String) (l : Nat) (p : String) (e : Bool)
    (kids ts : List IncTuple) :
    emitForest r (IncTuple.node l p e kids :: ts)
      = ⟨r, l, p, e⟩ :: (emitForest p kids ++ emitForest r ts) := by
  rw [emitForest]

theorem pathsOf_cons (l : Nat) (p : String) (e : Bool) (kids ts : List IncTuple) :
    pathsOf (IncTuple.node l p e kids :: ts) = p :: (pathsOf kids ++ pathsOf ts) := by
  rw [pathsOf]

theorem spineStack_cons2 (r : String) (acc : List IncTuple) (t s : IncTuple)
    (ts : List IncTuple) :
    spineStack r acc (t :: s :: ts) = spineStack r (acc ++ [t]) (s :: ts) := by
  rw [spineStack]
  exact fun _ _ _ _ _ h => by cases h

theorem spineTop_cons2 (r : String) (t s : IncTuple) (ts : List IncTuple) :
    spineTop r (t :: s :: ts) = spineTop r (s :: ts) := by
  rw [spineTop]
  exact fun _ _ _ _ _ h => by cases h

theorem lastPathF_cons2 (d : String) (t s : IncTuple) (ts : List IncTuple) :
    lastPathF d (t :: s :: ts) = lastPathF d (s :: ts) := by
  rw [lastPathF]
  exact fun _ _ _ _ _ h => by cases h

theorem spineStack_ne_nil (r : String) (acc cs : List IncTuple) :
    spineStack r acc cs ≠ [] := by
  induction r, acc, cs using spineStack.induct with
  | case1 r acc => simp [spineStack]
  | case2 r acc l p e => simp [spineStack]
  | case3 r acc l p e k1 krest ih => rw [spineStack]; simp
  | case4 r acc t ts hne ih =>
    obtain ⟨l, p, e, kids⟩ := t
    cases ts with
    | nil => exact absurd rfl (hne l p e kids rfl)
    | cons s ts2 => rw [spineStack_cons2]; exact ih

theorem spineStack_label_mem (r : String) (acc cs : List IncTuple) :
    ∀ f ∈ spineStack r acc cs, f.1 = r ∨ f.1 ∈ pathsOf cs := by
  induction r, acc, cs using spineStack.induct with
  | case1 r acc => simp [spineStack]
  | case2 r acc l p e => simp [spineStack]
  | case3 r acc l p e k1 krest ih =>
    intro f hf
    rw [spineStack] at hf
    rcases List.mem_append.mp hf with h | h
    · rcases ih f h with h1 | h1
      · right; rw [pathsOf_cons]; simp [h1]
    
      · right; rw [pathsOf_cons]; simp [h1]
    · left
      simp at h
      rw [h]
  | case4 r acc t ts hne ih =>
    obtain ⟨l, p, e, kids⟩ := t
    cases ts with
    | nil => exact absurd rfl (hne l p e kids rfl)
    | cons s ts2 =>
      intro f hf
      rw [spineStack_cons2] at hf
      rcases ih f hf with h1 | h1
      · left; exact h1
      · right
        rw [pathsOf_cons]
        simp only [List.mem_cons, List.mem_append]
        right; right; exact h1

theorem spineTop_mem (r : String) (cs : List IncTuple) :
    spineTop r cs = r ∨ spineTop r cs ∈ pathsOf cs := by
  induction r, cs using spineTop.induct with
  | case1 r => left; rw [spineTop]
  | case2 r l p e => left; rw [spineTop]
  | case3 r l p e k1 krest ih =>
    rw [spineTop]
    rcases ih with h | h
    · right; rw [pathsOf_cons, h]; simp
    · right; rw [pathsOf_cons]; simp [h]
  | case4 r t ts hne ih =>
    obtain ⟨l, p, e, kids⟩ := t
    cases ts with
    | nil => exact absurd rfl (hne l p e kids rfl)
    | cons s ts2 =>
      rw [spineTop_cons2]
      rcases ih with h | h
      · left; exact h
      · right
        rw [pathsOf_cons]
        simp only [List.mem_cons, List.mem_append]
        right; right; exact h

theorem lastPathF_mem (d : String) (cs : List IncTuple) :
    cs ≠ [] → lastPathF d cs ∈ pathsOf cs := by
  induction d, cs using lastPathF.induct with
  | case1 d => intro h; exact absurd rfl h
  | case2 d l p e kids ih =>
    intro _
    rw [lastPathF, pathsOf_cons]
    cases kids with
    | nil => rw [lastPathF]; simp
    | cons k1 krest =>
      have h1 := ih (by simp)
      simp only [List.mem_cons, List.mem_append]
      right; left; exact h1
  | case3 d t ts hne ih =>
    obtain ⟨l, p, e, kids⟩ := t
    cases ts with
    | nil => intro _; exact absurd rfl (hne l p e kids rfl)
    | cons s ts2 =>
      intro _
      rw [lastPathF_cons2, pathsOf_cons]
      have h1 := ih (by simp)
      simp only [List.mem_cons, List.mem_append]
      right; right; exact h1

theorem lastPathF_irrel (d : String) (cs : List IncTuple) :
    cs ≠ [] → ∀ d2 : String, lastPathF d cs = lastPathF d2 cs := by
  induction d, cs using lastPathF.induct with
  | case1 d => intro h; exact absurd rfl h
  | case2 d l p e kids ih =>
    intro _ d2
    rw [lastPathF, lastPathF]
  | case3 d t ts hne ih =>
    obtain ⟨l, p, e, kids⟩ := t
    cases ts with
    | nil => intro _; exact absurd rfl (hne l p e kids rfl)
    | cons s ts2 =>
      intro _ d2
      rw [lastPathF_cons2, lastPathF_cons2]
      exact ih (by simp) d2

/-- The central invariant of the reconstruction: consuming the depth-first
emission of a forest `cs` of children of `r`, from a state whose top frame
is `(r, acc)` with `current_root = r`, succeeds and leaves exactly the
rightmost open spine of `cs` on the stack (provided all node paths are
distinct and different from the parent label `r`). -/
theorem runRec_emitForest (r : String) (cs : List IncTuple) :
    ∀ (acc : List IncTuple) (rest : List Frame) (lr0 : String),
      (pathsOf cs).Nodup → (∀ q ∈ pathsOf cs, q ≠ r) →
      runRec ⟨(r, acc) :: rest, r, lr0⟩ (emitForest r cs)
        = Except.ok ⟨spineStack r acc cs ++ rest, spineTop r cs, lastPathF lr0 cs⟩ := by
  induction r, cs using emitForest.induct with
  | case1 r =>
    intro acc rest lr0 _ _
    rw [emitForest, spineStack, spineTop, lastPathF]
    rfl
  | case2 r l p e kids ts ih_kids ih_ts =>
    intro acc rest lr0 hnd hne
    have hpr : p ≠ r := hne p (by rw [pathsOf_cons]; simp)
    have hkid_ne_r : ∀ q ∈ pathsOf kids, q ≠ r := fun q hq =>
      hne q (by rw [pathsOf_cons]; simp [hq])
    have hts_ne_r : ∀ q ∈ pathsOf ts, q ≠ r := fun q hq =>
      hne q (by rw [pathsOf_cons]; simp [hq])
    rw [pathsOf_cons] at hnd
    have hnd2 : (pathsOf kids ++ pathsOf ts).Nodup := hnd.of_cons
    have hnd_kids : (pathsOf kids).Nodup := hnd2.of_append_left
    have hnd_ts : (pathsOf ts).Nodup := hnd2.of_append_right
    have hp_not : p ∉ pathsOf kids ++ pathsOf ts := (List.nodup_cons.mp hnd).1
    have hkid_ne_p : ∀ q ∈ pathsOf kids, q ≠ p := by
      intro q hq hqp
      exact hp_not (List.mem_append.mpr (Or.inl (hqp ▸ hq)))
    rw [emitForest_cons]
    have hstep1 : recStep ⟨(r, acc) :: rest, r, lr0⟩ ⟨r, l, p, e⟩
        = Except.ok ⟨(r, acc ++ [IncTuple.node l p e []]) :: rest, r, p⟩ :=
      recStep_sibling acc rest r lr0 ⟨r, l, p, e⟩ rfl
    rw [runRec_cons_ok _ hstep1]
    cases kids with
    | nil =>
      rw [emitForest, List.nil_append]
      cases ts with
      | nil =>
        rw [emitForest, runRec, spineStack, spineTop, lastPathF, lastPathF]
        rfl
      | cons s ts2 =>
        rw [ih_ts (acc ++ [IncTuple.node l p e []]) rest p hnd_ts hts_ne_r]
        rw [spineStack_cons2, spineTop_cons2, lastPathF_cons2]
        rw [lastPathF_irrel p (s :: ts2) (by simp) lr0]
    | cons k1 krest =>
      obtain ⟨l1, p1, e1, kids1⟩ := k1
      rw [emitForest_cons]
      have hbase_ne : acc ++ [IncTuple.node l p e []] ≠ [] := by simp
      have hstep_descend :
          recStep ⟨(r, acc ++ [IncTuple.node l p e []]) :: rest, r, p⟩ ⟨p, l1, p1, e1⟩
            = Except.ok ⟨(p, [mkNode ⟨p, l1, p1, e1⟩])
                :: (r, acc ++ [IncTuple.node l p e []]) :: rest, p, p1⟩ :=
        recStep_descend r (acc ++ [IncTuple.node l p e []]) hbase_ne rest r p
          ⟨p, l1, p1, e1⟩ (Ne.symm hpr) rfl
      have hstep_sib :
          recStep ⟨(p, []) :: (r, acc ++ [IncTuple.node l p e []]) :: rest, p, p⟩
              ⟨p, l1, p1, e1⟩
            = Except.ok ⟨(p, [mkNode ⟨p, l1, p1, e1⟩])
                :: (r, acc ++ [IncTuple.node l p e []]) :: rest, p, p1⟩ :=
        recStep_sibling [] ((r, acc ++ [IncTuple.node l p e []]) :: rest) p p
          ⟨p, l1, p1, e1⟩ rfl
      have hkids_run := ih_kids [] ((r, acc ++ [IncTuple.node l p e []]) :: rest) p
        hnd_kids hkid_ne_p
      rw [emitForest_cons, runRec_cons_ok _ hstep_sib] at hkids_run
      rw [List.cons_append, runRec_cons_ok _ hstep_descend]
      rw [runRec_append _ _ _ _ hkids_run]
      cases ts with
      | nil =>
        rw [emitForest, runRec]
        rw [spineStack]
        rw [spineTop]
        rw [lastPathF]
        simp only [List.append_assoc, List.cons_append, List.nil_append]
      | cons s ts2 =>
        obtain ⟨l2, p2, e2, kids2⟩ := s
        have hcol : collapse (spineStack p []
            (IncTuple.node l1 p1 e1 kids1 :: krest))
            = IncTuple.node l1 p1 e1 kids1 :: krest := by
          have h1 := collapse_spineStack p [] (IncTuple.node l1 p1 e1 kids1 :: krest) []
          rw [List.append_nil] at h1
          rw [h1]
          rfl
        have htop_ne : spineTop p (IncTuple.node l1 p1 e1 kids1 :: krest) ≠ r := by
          rcases spineTop_mem p (IncTuple.node l1 p1 e1 kids1 :: krest) with h | h
          · rw [h]; exact hpr
          · exact hkid_ne_r _ h
        have hlast_ne : lastPathF p (IncTuple.node l1 p1 e1 kids1 :: krest) ≠ r := by
          have h := lastPathF_mem p (IncTuple.node l1 p1 e1 kids1 :: krest) (by simp)
          exact hkid_ne_r _ h
        have hlab : ∀ g ∈ spineStack p [] (IncTuple.node l1 p1 e1 kids1 :: krest),
            g.1 ≠ r := by
          intro g hg
          rcases spineStack_label_mem p [] (IncTuple.node l1 p1 e1 kids1 :: krest) g hg
            with h | h
          · rw [h]; exact hpr
          · exact hkid_ne_r _ h
        have hstep_pop :
            recStep ⟨spineStack p [] (IncTuple.node l1 p1 e1 kids1 :: krest)
                ++ (r, acc ++ [IncTuple.node l p e []]) :: rest,
                spineTop p (IncTuple.node l1 p1 e1 kids1 :: krest),
                lastPathF p (IncTuple.node l1 p1 e1 kids1 :: krest)⟩ ⟨r, l2, p2, e2⟩
              = Except.ok ⟨(r, (acc ++ [IncTuple.node l p e
                    (IncTuple.node l1 p1 e1 kids1 :: krest)])
                  ++ [mkNode ⟨r, l2, p2, e2⟩]) :: rest, r, p2⟩ := by
          have h1 := recStep_pop (spineStack p [] (IncTuple.node l1 p1 e1 kids1 :: krest))
            r (acc ++ [IncTuple.node l p e []]) rest
            (spineTop p (IncTuple.node l1 p1 e1 kids1 :: krest))
            (lastPathF p (IncTuple.node l1 p1 e1 kids1 :: krest)) ⟨r, l2, p2, e2⟩
            htop_ne hlast_ne rfl
            (spineStack_ne_nil p [] (IncTuple.node l1 p1 e1 kids1 :: krest)) hlab
          rw [hcol, setLastChildren_append] at h1
          exact h1
        have hstep_sib2 :
            recStep ⟨(r, acc ++ [IncTuple.node l p e
                  (IncTuple.node l1 p1 e1 kids1 :: krest)]) :: rest, r, lr0⟩
                ⟨r, l2, p2, e2⟩
              = Except.ok ⟨(r, (acc ++ [IncTuple.node l p e
                    (IncTuple.node l1 p1 e1 kids1 :: krest)])
                  ++ [mkNode ⟨r, l2, p2, e2⟩]) :: rest, r, p2⟩ :=
          recStep_sibling (acc ++ [IncTuple.node l p e
              (IncTuple.node l1 p1 e1 kids1 :: krest)]) rest r lr0
            ⟨r, l2, p2, e2⟩ rfl
        have hts_run := ih_ts (acc ++ [IncTuple.node l p e
            (IncTuple.node l1 p1 e1 kids1 :: krest)]) rest lr0 hnd_ts hts_ne_r
        rw [emitForest_cons, runRec_cons_ok _ hstep_sib2] at hts_run
        rw [emitForest_cons, runRec_cons_ok _ hstep_pop]
        rw [hts_run]
        rw [spineStack_cons2, spineTop_cons2, lastPathF_cons2]

theorem recStep_ok_queue {st st2 : RecState} {resp : IncludedFilesReply}
    (h : recStep st resp = Except.ok st2) : st2.queue ≠ [] := by
  obtain ⟨queue, cr, lr⟩ := st
  cases queue with
  | nil => simp [recStep] at h
  | cons top rest =>
    simp only [recStep] at h
    split at h
    · cases h; simp
    · split at h
      · split at h
        · cases h
        · cases h; simp
      · split at h
        · cases h; simp
        · cases h

theorem runRec_queue_ne_nil (l : List IncludedFilesReply) :
    ∀ st st2 : RecState, st.queue ≠ [] → runRec st l = Except.ok st2 →
      st2.queue ≠ [] := by
  induction l with
  | nil => intro st st2 h hr; cases hr; exact h
  | cons r rs ih =>
    intro st st2 h hr
    cases hstep : recStep st r with
    | ok st3 =>
      rw [runRec_cons_ok _ hstep] at hr
      exact ih st3 st2 (recStep_ok_queue hstep) hr
    | error e => rw [runRec, hstep] at hr; cases hr

theorem emitForest_map_path (r : String) (cs : List IncTuple) :
    (emitForest r cs).map (fun resp => resp.path) = pathsOf cs := by
  induction r, cs using emitForest.induct with
  | case1 r => rw [emitForest, pathsOf]; rfl
  | case2 r l p e kids ts ih1 ih2 =>
    rw [emitForest_cons, pathsOf_cons]
    simp only [List.map_cons, List.map_append]
    rw [ih1, ih2]

/-! ## Claim theorems: include-tree reconstruction -/

/-- **C1** (amended): for every forest whose node paths are pairwise
distinct and all different from the queried root, `get_included_files`
applied to the depth-first pre-order emission of the forest rebuilds
exactly that forest (same nesting, and each node carries the record's line
number, path and exists flag), at any depth and branching factor. -/
theorem get_included_files_rebuilds_forest (root : String) (forest : List IncTuple)
    (h1 : (pathsOf forest).Nodup) (h2 : root ∉ pathsOf forest) :
    get_included_files root (emitForest root forest) = Except.ok forest := by
  have h := runRec_emitForest root forest [] [] "" h1
    (fun q hq hqr => h2 (hqr ▸ hq))
  simp only [get_included_files]
  rw [h]
  show Except.ok (collapse (spineStack root [] forest ++ [])) = Except.ok forest
  rw [collapse_spineStack root [] forest []]
  rfl

/-- Witness for **C1**: a depth-4 forest with branching factor 3 is
rebuilt exactly. -/
theorem get_included_files_rebuilds_forest_witness :
    get_included_files "/root" (emitForest "/root"
      [IncTuple.node 1 "/a" true
        [IncTuple.node 1 "/a1" true
          [IncTuple.node 1 "/a11" true [IncTuple.node 1 "/a111" false []],
           IncTuple.node 2 "/a12" true []],
         IncTuple.node 2 "/a2" false [],
         IncTuple.node 3 "/a3" true []],
       IncTuple.node 2 "/b" true [],
       IncTuple.node 3 "/c" true [IncTuple.node 5 "/c1" true []]])
      = Except.ok
      [IncTuple.node 1 "/a" true
        [IncTuple.node 1 "/a1" true
          [IncTuple.node 1 "/a11" true [IncTuple.node 1 "/a111" false []],
           IncTuple.node 2 "/a12" true []],
         IncTuple.node 2 "/a2" false [],
         IncTuple.node 3 "/a3" true []],
       IncTuple.node 2 "/b" true [],
       IncTuple.node 3 "/c" true [IncTuple.node 5 "/c1" true []]] :=
  get_included_files_rebuilds_forest "/root" _
    (by simp only [pathsOf_cons, pathsOf]; decide)
    (by simp only [pathsOf_cons, pathsOf]; decide)

/-- **C1** counterexample: for the tree consisting of a node whose path
equals the queried root `/a` with one child `/b`, the reconstruction of
its depth-first emission returns a flat two-node forest, not a forest
isomorphic to the input tree. -/
theorem get_included_files_not_isomorphic_counterexample :
    get_included_files "/a" (emitForest "/a"
        [IncTuple.node 1 "/a" true [IncTuple.node 1 "/b" true []]])
      = Except.ok [IncTuple.node 1 "/a" true [], IncTuple.node 1 "/b" true []]
    ∧ [IncTuple.node 1 "/a" true [], IncTuple.node 1 "/b" true []]
      ≠ [IncTuple.node 1 "/a" true [IncTuple.node 1 "/b" true []]] := by
  constructor
  · simp only [emitForest_cons, emitForest]
    rfl
  · intro h
    have h2 := congrArg List.length h
    simp at h2

/-- **C2** counterexample: on the stream
`[(/a,1,/b,true), (/a,2,/c,true), (/b,1,/d,false)]` with query root `/a`
the code raises `Exception("wrong root item: /b")` instead of returning a
forest: when the `/d` record arrives, no frame for `/b` is open (`/b` was
never the most recently appended node when its child arrived). -/
theorem get_included_files_c2_stream_raises :
    get_included_files "/a"
        [⟨"/a", 1, "/b", true⟩, ⟨"/a", 2, "/c", true⟩, ⟨"/b", 1, "/d", false⟩]
      = Except.error (PyExc.GenericException "wrong root item: /b") := rfl

/-- **C2** (amended): the stream of the claim makes `get_included_files`
raise the malformed-stream error naming `/b`; the depth-first reordering
of the same records, `[(/a,1,/b), (/b,1,/d), (/a,2,/c)]`, returns the
claimed forest `[(1,/b,true,[(1,/d,false,[])]), (2,/c,true,[])]`. -/
theorem get_included_files_c2_amended :
    get_included_files "/a"
        [⟨"/a", 1, "/b", true⟩, ⟨"/a", 2, "/c", true⟩, ⟨"/b", 1, "/d", false⟩]
      = Except.error (PyExc.GenericException "wrong root item: /b")
    ∧ get_included_files "/a"
        [⟨"/a", 1, "/b", true⟩, ⟨"/b", 1, "/d", false⟩, ⟨"/a", 2, "/c", true⟩]
      = Except.ok [IncTuple.node 1 "/b" true [IncTuple.node 1 "/d" false []],
                   IncTuple.node 2 "/c" true []] :=
  ⟨rfl, rfl⟩

/-- **C4**: if, at the point a record arrives, its `root_path` matches
neither `current_root` (the top frame), nor `last_root` (the last appended
node's path), nor the label of any frame on the stack, then the whole call
fails with the malformed-stream error naming the unmatched `root_path`;
no result forest is produced. -/
theorem get_included_files_wrong_root (root : String)
    (s1 s2 : List IncludedFilesReply) (resp : IncludedFilesReply) (st : RecState)
    (hrun : runRec ⟨[(root, [])], root, ""⟩ s1 = Except.ok st)
    (hcr : st.current_root ≠ resp.root_path)
    (hlr : st.last_root ≠ resp.root_path)
    (hfr : ∀ f ∈ st.queue, f.1 ≠ resp.root_path) :
    get_included_files root (s1 ++ resp :: s2)
      = Except.error (PyExc.GenericException ("wrong root item: " ++ resp.root_path)) := by
  have hq : st.queue ≠ [] := runRec_queue_ne_nil s1 _ st (by simp) hrun
  have hstep : recStep st resp
      = Except.error (PyExc.GenericException ("wrong root item: " ++ resp.root_path)) := by
    obtain ⟨queue, cr, lr⟩ := st
    exact recStep_wrong_root queue cr lr resp hq hcr hlr hfr
  simp only [get_included_files]
  rw [runRec_append s1 _ st _ hrun]
  rw [runRec, hstep]

/-- Witness for **C4**: the very first record of a stream whose
`root_path` `/x` differs from the query root `/a` (and from the initial
`last_root` `''`) aborts the call with the malformed-stream error. -/
theorem get_included_files_wrong_root_witness :
    get_included_files "/a" ([] ++ ⟨"/x", 1, "/y", true⟩ :: [])
      = Except.error (PyExc.GenericException ("wrong root item: " ++ "/x")) :=
  get_included_files_wrong_root "/a" [] [] ⟨"/x", 1, "/y", true⟩
    ⟨[("/a", [])], "/a", ""⟩ rfl (by decide) (by decide) (by decide)

/-- **C5**: when a record's `root_path` matches the label `R` of an
ancestor frame lying two or more levels below the top (`f` and `g` are the
two topmost frames, all frames above the ancestor have labels different
from `R`, and neither `current_root` nor `last_root` matches), the step
pops exactly down to that ancestor and appends the record to the
ancestor's child list; a following record with the same `root_path` is
appended as its sibling in the same (now top) ancestor frame — not to the
frame that was previously on top. -/
theorem recStep_ascend_resume
    (f g : Frame) (S : List Frame) (R : String) (b : List IncTuple)
    (rest : List Frame) (cr lr : String) (r1 r2 : IncludedFilesReply)
    (hlab : ∀ x ∈ f :: g :: S, x.1 ≠ R)
    (hcr : cr ≠ R) (hlr : lr ≠ R) (h1 : r1.root_path = R) (h2 : r2.root_path = R) :
    recStep ⟨(f :: g :: S) ++ (R, b) :: rest, cr, lr⟩ r1
      = Except.ok ⟨(R, setLastChildren b (collapse (f :: g :: S)) ++ [mkNode r1]) :: rest,
          R, r1.path⟩
    ∧ recStep ⟨(R, setLastChildren b (collapse (f :: g :: S)) ++ [mkNode r1]) :: rest,
          R, r1.path⟩ r2
      = Except.ok ⟨(R, (setLastChildren b (collapse (f :: g :: S)) ++ [mkNode r1])
            ++ [mkNode r2]) :: rest, R, r2.path⟩ := by
  constructor
  · exact recStep_pop (f :: g :: S) R b rest cr lr r1
      (by rw [h1]; exact hcr) (by rw [h1]; exact hlr) h1 (by simp) hlab
  · exact recStep_sibling _ rest R r1.path r2 h2

/-- Witness for **C5**: with open frames `/c`, `/b` above the ancestor
`/a`, a record with `root_path = /a` is reattached under `/a` (closing the
`/b → /c` spine into the tree), and its successor record lands beside it. -/
theorem recStep_ascend_resume_witness :
    recStep ⟨(("/c", [IncTuple.node 1 "/d" true []])
          :: ("/b", [IncTuple.node 1 "/c" true []]) :: [])
        ++ ("/a", [IncTuple.node 1 "/b" true []]) :: [], "/c", "/d"⟩
        ⟨"/a", 2, "/e", true⟩
      = Except.ok ⟨("/a", setLastChildren [IncTuple.node 1 "/b" true []]
            (collapse (("/c", [IncTuple.node 1 "/d" true []])
              :: ("/b", [IncTuple.node 1 "/c" true []]) :: []))
          ++ [mkNode ⟨"/a", 2, "/e", true⟩]) :: [], "/a", "/e"⟩
    ∧ recStep ⟨("/a", setLastChildren [IncTuple.node 1 "/b" true []]
            (collapse (("/c", [IncTuple.node 1 "/d" true []])
              :: ("/b", [IncTuple.node 1 "/c" true []]) :: []))
          ++ [mkNode ⟨"/a", 2, "/e", true⟩]) :: [], "/a", "/e"⟩
        ⟨"/a", 3, "/f", false⟩
      = Except.ok ⟨("/a", (setLastChildren [IncTuple.node 1 "/b" true []]
            (collapse (("/c", [IncTuple.node 1 "/d" true []])
              :: ("/b", [IncTuple.node 1 "/c" true []]) :: []))
          ++ [mkNode ⟨"/a", 2, "/e", true⟩]) ++ [mkNode ⟨"/a", 3, "/f", false⟩]) :: [],
          "/a", "/f"⟩ :=
  recStep_ascend_resume ("/c", [IncTuple.node 1 "/d" true []])
    ("/b", [IncTuple.node 1 "/c" true []]) [] "/a" [IncTuple.node 1 "/b" true []] []
    "/c" "/d" ⟨"/a", 2, "/e", true⟩ ⟨"/a", 3, "/f", false⟩
    (by decide) (by decide) (by decide) rfl rfl

/-- **C8**: on the stream emitted for any forest (duplicate paths across
nodes allowed), `get_included_files_set` returns a duplicate-free list
whose members are exactly the node paths occurring in the forest. -/
theorem get_included_files_set_distinct (root : String) (forest : List IncTuple) :
    (get_included_files_set (emitForest root forest)).Nodup
    ∧ ∀ q : String,
        q ∈ get_included_files_set (emitForest root forest) ↔ q ∈ pathsOf forest := by
  constructor
  · exact List.nodup_dedup _
  · intro q
    simp only [get_included_files_set]
    rw [List.mem_dedup, emitForest_map_path]

/-! ## Claim theorems: status mapping and request builders -/

theorem get_loaded_files_eq_map (response : List LoadedFileMsg) :
    get_loaded_files response = response.map loadedTuple := by
  have h : ∀ (init : List (String × String × List (String × String) × String × String))
      (rs : List LoadedFileMsg),
      rs.foldl (fun result loaded_file => result ++ [loadedTuple loaded_file]) init
        = init ++ rs.map loadedTuple := by
    intro init rs
    induction rs generalizing init with
    | nil => simp
    | cons x xs ih => simp [List.foldl_cons, ih]
  simpa using h [] response

/-- **C9**: an empty `GetLoadedFiles` stream yields the empty list (no
error), and in general the result has one
`(package, path, args, masteruri, host)` tuple per streamed response, in
stream order. -/
theorem get_loaded_files_stream :
    get_loaded_files [] = []
    ∧ ∀ (response : List LoadedFileMsg) (i : Nat),
        (get_loaded_files response)[i]? = (response[i]?).map loadedTuple := by
  constructor
  · rfl
  · intro response i
    rw [get_loaded_files_eq_map, List.getElem?_map]

/-- **C10**: `load_launch` with `args=None` sends exactly the same request
as with `args={}` (no argument entries) and behaves identically on the
response: the two calls are observationally equivalent. -/
theorem load_launch_none_eq_empty (package launch path : String)
    (request_args : Bool) (masteruri host : String) (response : LoadLaunchReply) :
    load_launch package launch path none request_args masteruri host response
      = load_launch package launch path (some []) request_args masteruri host response := rfl

/-- **C3** counterexample: `start_standalone_node` returns normally
(raises nothing) on the non-OK status `ALREADY_OPEN`, and `start_node`
silently ignores a whole response whose status is the non-OK
`FILE_NOT_FOUND`; neither call raises the generic remote-failure
exception on a code it does not special-case. -/
theorem start_nonok_ignored_counterexample :
    (start_standalone_node
        ⟨"ros_pkg", "ros_node", "", "", "", "", "", "", [], [], [], [], [], "",
         "INFO", false, 0, 0, 0⟩
        ⟨⟨StatusType.ALREADY_OPEN, "already open"⟩, []⟩).2 = Except.ok ()
    ∧ StatusType.ALREADY_OPEN ≠ StatusType.OK
    ∧ start_node [⟨⟨StatusType.FILE_NOT_FOUND, "no such file"⟩, [], []⟩]
      = Except.ok ()
    ∧ StatusType.FILE_NOT_FOUND ≠ StatusType.OK :=
  ⟨rfl, by decide, rfl, by decide⟩

/-- **C3** (amended): per streamed response, `start_node` raises
`StartException` on `ERROR` and `NODE_NOT_FOUND`, `BinarySelectionRequest`
on `MULTIPLE_BINARIES`, `LaunchSelectionRequest` on `MULTIPLE_LAUNCHES`,
and silently ignores every other status code (`OK`, but also the non-OK
`ALREADY_OPEN`, `PARAMS_REQUIRED`, `FILE_NOT_FOUND`); `start_standalone_node`
raises `BinarySelectionRequest` on `MULTIPLE_BINARIES` and `StartException`
on `FILE_NOT_FOUND` and `ERROR`, and returns normally on every other code
(`OK`, but also the non-OK `ALREADY_OPEN`, `MULTIPLE_LAUNCHES`,
`PARAMS_REQUIRED`, `NODE_NOT_FOUND`). Neither ever raises the generic
`RemoteException`. -/
theorem start_dispatch_total (r : StartNodeReply) (cfg : StartConfig)
    (resp : StandaloneReply) :
    processStartResponse r = (match r.status.code with
      | StatusType.ERROR => Except.error (PyExc.StartException r.status.error_msg)
      | StatusType.NODE_NOT_FOUND =>
          Except.error (PyExc.StartException r.status.error_msg)
      | StatusType.MULTIPLE_BINARIES =>
          Except.error (PyExc.BinarySelectionRequest r.path r.status.error_msg)
      | StatusType.MULTIPLE_LAUNCHES =>
          Except.error (PyExc.LaunchSelectionRequest r.launch r.status.error_msg)
      | _ => Except.ok ())
    ∧ start_standalone_node_response cfg resp = (match resp.status.code with
      | StatusType.MULTIPLE_BINARIES =>
          Except.error (PyExc.BinarySelectionRequest resp.path "Multiple executables")
      | StatusType.FILE_NOT_FOUND =>
          Except.error (PyExc.StartException
            ("Can't find " ++ cfg.binary ++ " in " ++ cfg.package))
      | StatusType.ERROR => Except.error (PyExc.StartException resp.status.error_msg)
      | _ => Except.ok ()) := by
  constructor
  · cases h : r.status.code <;>
      simp [processStartResponse, h, StatusType.code]
  · cases h : resp.status.code <;>
      simp [start_standalone_node_response, h, StatusType.code]

/-- **C6**: every status code that `load_launch` and `start_node`
special-case maps to its documented exception and preserves the full
response payload: `MULTIPLE_LAUNCHES` carries all candidate launch paths
in order, `PARAMS_REQUIRED` the full name-to-value argument mapping,
`ALREADY_OPEN` the conflicting (first) path, `MULTIPLE_BINARIES` all
candidate binary paths in order; non-special-cased codes of `load_launch`
raise `RemoteException` with the raw code; and every raised failure
carries the response's message. -/
theorem status_payload_preserved (resp : LoadLaunchReply) (snr : StartNodeReply)
    (p0 : String) (ps : List String) :
    (resp.status.code = StatusType.MULTIPLE_LAUNCHES →
      load_launch_response resp
        = Except.error (PyExc.LaunchSelectionRequest resp.path resp.status.error_msg))
    ∧ (resp.status.code = StatusType.PARAMS_REQUIRED →
      load_launch_response resp
        = Except.error (PyExc.ParamSelectionRequest
            (pyDict (resp.args.map (fun a => (a.name, a.value)))) resp.status.error_msg))
    ∧ (resp.status.code = StatusType.ALREADY_OPEN → resp.path = p0 :: ps →
      load_launch_response resp
        = Except.error (PyExc.AlreadyOpenException p0 resp.status.error_msg))
    ∧ (resp.status.code = StatusType.ERROR ∨ resp.status.code = StatusType.FILE_NOT_FOUND
        ∨ resp.status.code = StatusType.NODE_NOT_FOUND →
      load_launch_response resp
        = Except.error (PyExc.RemoteException resp.status.code resp.status.error_msg))
    ∧ (snr.status.code = StatusType.MULTIPLE_BINARIES →
      processStartResponse snr
        = Except.error (PyExc.BinarySelectionRequest snr.path snr.status.error_msg))
    ∧ (snr.status.code = StatusType.MULTIPLE_LAUNCHES →
      processStartResponse snr
        = Except.error (PyExc.LaunchSelectionRequest snr.launch snr.status.error_msg))
    ∧ (snr.status.code = StatusType.ERROR ∨ snr.status.code = StatusType.NODE_NOT_FOUND →
      processStartResponse snr
        = Except.error (PyExc.StartException snr.status.error_msg)) := by
  refine ⟨?_, ?_, ?_, ?_, ?_, ?_, ?_⟩
  · intro h
    simp [load_launch_response, h]
  · intro h
    simp [load_launch_response, h]
  · intro h hpath
    simp [load_launch_response, h, hpath]
  · intro h
    rcases h with h | h | h <;> simp [load_launch_response, h]
  · intro h
    simp [processStartResponse, h, StatusType.code]
  · intro h
    simp [processStartResponse, h, StatusType.code]
  · intro h
    rcases h with h | h <;> simp [processStartResponse, h, StatusType.code]

/-- Witness for **C6**: concrete responses for each special-cased code. -/
theorem status_payload_preserved_witness :
    load_launch_response ⟨⟨StatusType.MULTIPLE_LAUNCHES, "many launches"⟩,
        ["/l1", "/l2", "/l3"], []⟩
      = Except.error (PyExc.LaunchSelectionRequest ["/l1", "/l2", "/l3"] "many launches")
    ∧ load_launch_response ⟨⟨StatusType.PARAMS_REQUIRED, "need args"⟩, [],
        [⟨"a", "1"⟩, ⟨"b", "2"⟩]⟩
      = Except.error (PyExc.ParamSelectionRequest
          (pyDict ([⟨"a", "1"⟩, ⟨"b", "2"⟩].map
            (fun a : Argument => (a.name, a.value)))) "need args")
    ∧ load_launch_response ⟨⟨StatusType.ALREADY_OPEN, "open elsewhere"⟩, ["/conflict"], []⟩
      = Except.error (PyExc.AlreadyOpenException "/conflict" "open elsewhere")
    ∧ load_launch_response ⟨⟨StatusType.FILE_NOT_FOUND, "gone"⟩, [], []⟩
      = Except.error (PyExc.RemoteException StatusType.FILE_NOT_FOUND "gone")
    ∧ processStartResponse ⟨⟨StatusType.MULTIPLE_BINARIES, "many bins"⟩,
        ["/b1", "/b2"], []⟩
      = Except.error (PyExc.BinarySelectionRequest ["/b1", "/b2"] "many bins")
    ∧ processStartResponse ⟨⟨StatusType.MULTIPLE_LAUNCHES, "many launches"⟩, [],
        ["/l1", "/l2"]⟩
      = Except.error (PyExc.LaunchSelectionRequest ["/l1", "/l2"] "many launches")
    ∧ processStartResponse ⟨⟨StatusType.NODE_NOT_FOUND, "no node"⟩, [], []⟩
      = Except.error (PyExc.StartException "no node") :=
  ⟨(status_payload_preserved ⟨⟨StatusType.MULTIPLE_LAUNCHES, "many launches"⟩,
      ["/l1", "/l2", "/l3"], []⟩ ⟨⟨StatusType.OK, ""⟩, [], []⟩ "" []).1 rfl,
   (status_payload_preserved ⟨⟨StatusType.PARAMS_REQUIRED, "need args"⟩, [],
      [⟨"a", "1"⟩, ⟨"b", "2"⟩]⟩ ⟨⟨StatusType.OK, ""⟩, [], []⟩ "" []).2.1 rfl,
   (status_payload_preserved ⟨⟨StatusType.ALREADY_OPEN, "open elsewhere"⟩,
      ["/conflict"], []⟩ ⟨⟨StatusType.OK, ""⟩, [], []⟩ "/conflict" []).2.2.1 rfl rfl,
   (status_payload_preserved ⟨⟨StatusType.FILE_NOT_FOUND, "gone"⟩, [], []⟩
      ⟨⟨StatusType.OK, ""⟩, [], []⟩ "" []).2.2.2.1 (Or.inr (Or.inl rfl)),
   (status_payload_preserved ⟨⟨StatusType.OK, ""⟩, [], []⟩
      ⟨⟨StatusType.MULTIPLE_BINARIES, "many bins"⟩, ["/b1", "/b2"], []⟩ "" []).2.2.2.2.1 rfl,
   (status_payload_preserved ⟨⟨StatusType.OK, ""⟩, [], []⟩
      ⟨⟨StatusType.MULTIPLE_LAUNCHES, "many launches"⟩, [],
       ["/l1", "/l2"]⟩ "" []).2.2.2.2.2.1 rfl,
   (status_payload_preserved ⟨⟨StatusType.OK, ""⟩, [], []⟩
      ⟨⟨StatusType.NODE_NOT_FOUND, "no node"⟩, [], []⟩ "" []).2.2.2.2.2.2
     (Or.inr rfl)⟩

/-- **C7**: in the request built by `start_standalone_node`, each optional
field is present exactly when the caller's value is non-empty
(`binary_path`, `name`, `namespace`, `fullname`, `prefix`, `cwd`, `env`,
`remaps`, `params`, `clear_params`, `args`, `masteruri`), while
`loglevel`, `respawn`, `respawn_delay`, `respawn_max`,
`respawn_min_runtime` are always copied; a `StartConfig` with only
`package` and `binary` set produces a request with exactly those two
fields plus the always-present ones, and `env = {"A": "1"}` contributes
exactly the single entry `("A", "1")`. -/
theorem start_config_sparse_fields (startcfg : StartConfig) :
    ((build_start_config_request startcfg).binary_path = none
      ↔ startcfg.binary_path = "")
    ∧ ((build_start_config_request startcfg).name = none ↔ startcfg.name = "")
    ∧ ((build_start_config_request startcfg).namespace_str = none
      ↔ startcfg.namespace_str = "")
    ∧ ((build_start_config_request startcfg).fullname = none ↔ startcfg.fullname = "")
    ∧ ((build_start_config_request startcfg).prefix_str = none
      ↔ startcfg.prefix_str = "")
    ∧ ((build_start_config_request startcfg).cwd = none ↔ startcfg.cwd = "")
    ∧ ((build_start_config_request startcfg).env = [] ↔ startcfg.env = [])
    ∧ ((build_start_config_request startcfg).remaps = [] ↔ startcfg.remaps = [])
    ∧ ((build_start_config_request startcfg).params = [] ↔ startcfg.params = [])
    ∧ ((build_start_config_request startcfg).clear_params = []
      ↔ startcfg.clear_params = [])
    ∧ ((build_start_config_request startcfg).args = [] ↔ startcfg.args = [])
    ∧ ((build_start_config_request startcfg).masteruri = none
      ↔ startcfg.masteruri = "")
    ∧ (build_start_config_request startcfg).package = startcfg.package
    ∧ (build_start_config_request startcfg).binary = startcfg.binary
    ∧ (build_start_config_request startcfg).loglevel = startcfg.loglevel
    ∧ (build_start_config_request startcfg).respawn = startcfg.respawn
    ∧ (build_start_config_request startcfg).respawn_delay = startcfg.respawn_delay
    ∧ (build_start_config_request startcfg).respawn_max = startcfg.respawn_max
    ∧ (build_start_config_request startcfg).respawn_min_runtime
      = startcfg.respawn_min_runtime
    ∧ build_start_config_request
        ⟨"ros_pkg", "ros_node", "", "", "", "", "", "", [], [], [], [], [], "",
         startcfg.loglevel, startcfg.respawn, startcfg.respawn_delay,
         startcfg.respawn_max, startcfg.respawn_min_runtime⟩
      = ⟨"ros_pkg", "ros_node", none, none, none, none, none, none, [], [], [], [], [],
         none, startcfg.loglevel, startcfg.respawn, startcfg.respawn_delay,
         startcfg.respawn_max, startcfg.respawn_min_runtime⟩
    ∧ (build_start_config_request { startcfg with env := [("A", "1")] }).env
      = [⟨"A", "1"⟩] := by
  refine ⟨?_, ?_, ?_, ?_, ?_, ?_, ?_, ?_, ?_, ?_, ?_, ?_, rfl, rfl, rfl, rfl, rfl,
    rfl, rfl, rfl, rfl⟩
  · by_cases h : startcfg.binary_path = "" <;> simp [build_start_config_request, h]
  · by_cases h : startcfg.name = "" <;> simp [build_start_config_request, h]
  · by_cases h : startcfg.namespace_str = "" <;> simp [build_start_config_request, h]
  · by_cases h : startcfg.fullname = "" <;> simp [build_start_config_request, h]
  · by_cases h : startcfg.prefix_str = "" <;> simp [build_start_config_request, h]
  · by_cases h : startcfg.cwd = "" <;> simp [build_start_config_request, h]
  · by_cases h : startcfg.env = [] <;> simp [build_start_config_request, h]
  · by_cases h : startcfg.remaps = [] <;> simp [build_start_config_request, h]
  · by_cases h : startcfg.params = [] <;> simp [build_start_config_request, h]
  · by_cases h : startcfg.clear_params = [] <;> simp [build_start_config_request, h]
  · by_cases h : startcfg.args = [] <;> simp [build_start_config_request, h]
  · by_cases h : startcfg.masteruri = "" <;> simp [build_start_config_request, h]
